import Mathlib

/-!
# Verification of the RTMP mixing-pipeline controller

Shallow embedding of the mixing-pipeline controller of the
nac-translation-app repository:

* `mixer.js` (`RTMPMixer`): configuration merging, FFmpeg filter-graph
  construction, output-option selection, and the start/stop/updateVolumes
  lifecycle of the single FFmpeg transcoding process;
* the `/api/start` and `/api/volumes` route handlers of the server
  (audio-mode dispatch that resolves the secondary audio path);
* `browser-audio.js` (`BrowserAudioCapture.captureFromDevice`): the
  device-mode capture subprocess and its timeout behaviour.

JavaScript numbers that flow into the FFmpeg filter expressions (volumes,
delays and the derived gain factors and second offsets) are modelled as
rationals (`ℚ`); the filter-graph text is modelled structurally, one
`Stage` per string pushed onto the `filters` array, carrying the exact
numeric parameters that the code interpolates into the string.  Output
options and input options, which contain no computed numbers apart from
the verbatim `videoBitrate` string, are kept as literal string lists.
-/

/-! ## Data model of `RTMPMixer` (mixer.js) -/

/-- Configuration object held in `this.config` of `RTMPMixer` (mixer.js,
constructor).  `browserAudioPath` is `none` for JavaScript `null` and
`some s` for a string `s`; the constructor default is the empty string. -/
structure MixerConfig where
  inputRtmpUrl : String
  outputRtmpUrl : String
  browserAudioPath : Option String
  rtmpVolume : ℚ
  browserVolume : ℚ
  rtmpDelay : ℚ
  browserDelay : ℚ
  videoBitrate : String
deriving DecidableEq, Repr

/-- Constructor defaults of `RTMPMixer` (mixer.js lines 8-17). -/
def initialConfig : MixerConfig :=
  { inputRtmpUrl := ""
    outputRtmpUrl := ""
    browserAudioPath := some ""
    rtmpVolume := 100
    browserVolume := 100
    rtmpDelay := 0
    browserDelay := 0
    videoBitrate := "6000k" }

/-- Partial configuration passed to `start(config)`: a JavaScript object
that may omit any field.  `none` means the key is absent, so the object
spread `\x7b...this.config, ...config\x7d` keeps the stored value.  For
`browserAudioPath`, `some none` models a present key with value `null`. -/
structure ConfigUpdate where
  inputRtmpUrl : Option String := none
  outputRtmpUrl : Option String := none
  browserAudioPath : Option (Option String) := none
  rtmpVolume : Option ℚ := none
  browserVolume : Option ℚ := none
  rtmpDelay : Option ℚ := none
  browserDelay : Option ℚ := none
  videoBitrate : Option String := none

/-- Object spread `this.config = \x7b ...this.config, ...config \x7d`
(mixer.js line 26): every key present in the update overrides the stored
value, every absent key retains it. -/
def mergeConfig (base : MixerConfig) (u : ConfigUpdate) : MixerConfig :=
  { inputRtmpUrl := u.inputRtmpUrl.getD base.inputRtmpUrl
    outputRtmpUrl := u.outputRtmpUrl.getD base.outputRtmpUrl
    browserAudioPath := u.browserAudioPath.getD base.browserAudioPath
    rtmpVolume := u.rtmpVolume.getD base.rtmpVolume
    browserVolume := u.browserVolume.getD base.browserVolume
    rtmpDelay := u.rtmpDelay.getD base.rtmpDelay
    browserDelay := u.browserDelay.getD base.browserDelay
    videoBitrate := u.videoBitrate.getD base.videoBitrate }

/-- Update object holding every field of a full config, as in
`updateVolumes`, which calls `this.start(this.config)` with the complete
stored configuration (mixer.js line 212). -/
def fullUpdate (c : MixerConfig) : ConfigUpdate :=
  { inputRtmpUrl := some c.inputRtmpUrl
    outputRtmpUrl := some c.outputRtmpUrl
    browserAudioPath := some c.browserAudioPath
    rtmpVolume := some c.rtmpVolume
    browserVolume := some c.browserVolume
    rtmpDelay := some c.rtmpDelay
    browserDelay := some c.browserDelay
    videoBitrate := some c.videoBitrate }

/-- JavaScript truthiness of `this.config.browserAudioPath` as used in
`if (this.config.browserAudioPath)` (mixer.js lines 59 and 73): `null`
and the empty string are falsy, any other string is truthy. -/
def truthyPath : Option String → Bool
  | none => false
  | some s => s ≠ ""

/-! ## Filter-graph construction (mixer.js lines 29-114)

Each element of the JavaScript `filters` array is one `Stage`.  An
`audioChain` stage is a pushed string of the form
`[in]op1,op2[out]`; its operation list carries the exact numbers the
code interpolates (`volume=factor` and `adelay=ms|ms`). -/

/-- Audio filter operation inside one pushed filter string. -/
inductive AudioOp where
  | volume (factor : ℚ)
  | adelay (leftMs rightMs : ℚ)
deriving DecidableEq, Repr

/-- One element of the `filters` array. -/
inductive Stage where
  | setpts (inLabel : String) (shiftSeconds : ℚ) (outLabel : String)
  | audioChain (inLabel : String) (ops : List AudioOp) (outLabel : String)
  | amix (inLabel1 inLabel2 : String) (duration : String)
      (dropoutTransition : ℚ) (outLabel : String)
deriving DecidableEq, Repr

/-- Filter list built by `start` (mixer.js lines 70-114), on the merged
configuration.  The derived quantities mirror lines 31-36:
`rtmpVolumeFilter = rtmpVolume / 100`, `rtmpDelaySeconds = rtmpDelay /
1000`, and likewise for the browser fields. -/
def buildFilterComplex (c : MixerConfig) : List Stage :=
  let rtmpVolumeFilter : ℚ := c.rtmpVolume / 100
  let browserVolumeFilter : ℚ := c.browserVolume / 100
  let rtmpDelaySeconds : ℚ := c.rtmpDelay / 1000
  let browserDelaySeconds : ℚ := c.browserDelay / 1000
  if truthyPath c.browserAudioPath then
    (if 0 < rtmpDelaySeconds then
      [Stage.setpts "[0:v]" rtmpDelaySeconds "[v0]"]
    else []) ++
    [if 0 < rtmpDelaySeconds then
      Stage.audioChain "[0:a]"
        [AudioOp.volume rtmpVolumeFilter,
         AudioOp.adelay c.rtmpDelay c.rtmpDelay] "[a0]"
    else
      Stage.audioChain "[0:a]" [AudioOp.volume rtmpVolumeFilter] "[a0]"] ++
    [if 0 < browserDelaySeconds then
      Stage.audioChain "[1:a]"
        [AudioOp.volume browserVolumeFilter,
         AudioOp.adelay c.browserDelay c.browserDelay] "[a1]"
    else
      Stage.audioChain "[1:a]" [AudioOp.volume browserVolumeFilter] "[a1]"] ++
    [Stage.amix "[a0]" "[a1]" "longest" 2 "[aout]"]
  else
    if 0 < rtmpDelaySeconds then
      [Stage.setpts "[0:v]" rtmpDelaySeconds "[v0]",
       Stage.audioChain "[0:a]"
        [AudioOp.volume rtmpVolumeFilter,
         AudioOp.adelay c.rtmpDelay c.rtmpDelay] "[aout]"]
    else
      [Stage.audioChain "[0:a]" [AudioOp.volume rtmpVolumeFilter] "[aout]"]

/-- Flag `needsVideoFilter = rtmpDelaySeconds > 0` (mixer.js line 71). -/
def needsVideoFilter (c : MixerConfig) : Bool :=
  decide (0 < c.rtmpDelay / 1000)

/-- Output options array (mixer.js lines 117-150). -/
def buildOutputOptions (c : MixerConfig) : List String :=
  (if needsVideoFilter c then ["-map [v0]"] else ["-map 0:v"]) ++
  ["-map [aout]"] ++
  (if needsVideoFilter c then
    ["-c:v libx264", "-preset ultrafast", "-b:v " ++ c.videoBitrate]
  else ["-c:v copy"]) ++
  ["-c:a aac", "-b:a 192k", "-ar 48000", "-ac 2", "-f flv",
   "-flvflags no_duration_filesize"]

/-- Input options of the primary RTMP input (mixer.js lines 52-56). -/
def primaryInputOptionList : List String :=
  ["-thread_queue_size", "512", "-re", "-fflags", "+genpts"]

/-- Input options of the secondary audio input (mixer.js lines 61-66);
they always include `-stream_loop -1`. -/
def secondaryInputOptionList : List String :=
  ["-re", "-stream_loop", "-1", "-thread_queue_size", "1024", "-fflags",
   "+igndts"]

/-- Input list of the FFmpeg invocation: the primary RTMP url always,
and the secondary audio path whenever it is truthy (mixer.js lines
51-67). -/
def buildInputs (c : MixerConfig) : List (String × List String) :=
  (c.inputRtmpUrl, primaryInputOptionList) ::
  (match c.browserAudioPath with
   | some s => if s ≠ "" then [(s, secondaryInputOptionList)] else []
   | none => [])

/-- Complete specification handed to the FFmpeg process by `start`. -/
structure GraphSpec where
  inputs : List (String × List String)
  filterComplex : List Stage
  outputOptions : List String
  outputUrl : String
deriving DecidableEq, Repr

/-- Assembly of the full FFmpeg invocation from a merged configuration
(mixer.js lines 48-155). -/
def buildGraphSpec (c : MixerConfig) : GraphSpec :=
  { inputs := buildInputs c
    filterComplex := buildFilterComplex c
    outputOptions := buildOutputOptions c
    outputUrl := c.outputRtmpUrl }

example :
    buildFilterComplex { initialConfig with browserAudioPath := none } =
      [Stage.audioChain "[0:a]" [AudioOp.volume 1] "[aout]"] := by
  norm_num [buildFilterComplex, initialConfig, truthyPath]

def scenarioBConfig : MixerConfig :=
  { inputRtmpUrl := "rtmp://in"
    outputRtmpUrl := "rtmp://out"
    browserAudioPath := some "x.wav"
    rtmpVolume := 150
    browserVolume := 50
    rtmpDelay := 0
    browserDelay := 200
    videoBitrate := "6000k" }

example :
    buildFilterComplex scenarioBConfig =
      [Stage.audioChain "[0:a]" [AudioOp.volume (3/2)] "[a0]",
       Stage.audioChain "[1:a]"
         [AudioOp.volume (1/2), AudioOp.adelay 200 200] "[a1]",
       Stage.amix "[a0]" "[a1]" "longest" 2 "[aout]"] := by
  simp [buildFilterComplex, scenarioBConfig, truthyPath]
  norm_num

/-! ## Process-lifecycle state machine (mixer.js lines 20-221)

The mutable state of one `RTMPMixer` instance is `this.config`,
`this.isRunning` and `this.ffmpegProcess`.  The process handle is
modelled as `Option Bool`: `none` for `null`, `some true` for a handle
whose FFmpeg process is still alive, `some false` for a handle whose
process has already exited (the `error` and `end` events fire only after
the process has died).  The ghost counter `alive` counts the live
transcoding processes that the instance has spawned and that have not
yet exited; it is the quantity the single-process claims speak about.

Each controller operation is modelled by the list of externally visible
states it passes through, in program order: the state after the old
process has been killed and reaped, the state after the configuration
merge, and the state after the new process is spawned (`.run()` followed
by the `start` event that sets `isRunning`). -/

/-- Mutable state of one `RTMPMixer` instance plus the ghost live-process
counter. -/
structure MixerState where
  config : MixerConfig
  isRunning : Bool
  ffmpegProcess : Option Bool
  alive : Nat
deriving DecidableEq, Repr

/-- State of a freshly constructed `RTMPMixer` (mixer.js lines 5-18). -/
def initialState : MixerState :=
  { config := initialConfig
    isRunning := false
    ffmpegProcess := none
    alive := 0 }

/-- Result state of `stop()` (mixer.js lines 188-201).  With a process
handle present, `kill` is sent and the `end` handler clears `isRunning`
and the handle; the live counter drops only if the process was still
alive.  Without a handle only `isRunning` is cleared.  When the handle
is present but its process already exited, the code would in fact wait
forever for a second `end` event; completing the cleanup anyway is a
sound over-approximation for the safety properties proved here, since
no process is spawned either way. -/
def stopFinal (s : MixerState) : MixerState :=
  match s.ffmpegProcess with
  | some aliveFlag =>
      { s with isRunning := false, ffmpegProcess := none,
               alive := s.alive - (if aliveFlag then 1 else 0) }
  | none => { s with isRunning := false }

/-- Spawn of the FFmpeg process: `.run()` followed by the `start` event
handler setting `this.isRunning = true` (mixer.js lines 158-162 and
178). -/
def spawnProcess (s : MixerState) : MixerState :=
  { s with ffmpegProcess := some true, isRunning := true,
           alive := s.alive + 1 }

/-- States visited by `start(config)` (mixer.js lines 20-186): when
`isRunning`, first `await this.stop()`; then the configuration merge;
then the spawn. -/
def startVisited (s : MixerState) (u : ConfigUpdate) : List MixerState :=
  if s.isRunning then
    let s1 := stopFinal s
    let s2 := { s1 with config := mergeConfig s1.config u }
    [s1, s2, spawnProcess s2]
  else
    let s2 := { s with config := mergeConfig s.config u }
    [s2, spawnProcess s2]

/-- Final state of `start(config)`. -/
def startFinal (s : MixerState) (u : ConfigUpdate) : MixerState :=
  let s1 := if s.isRunning then stopFinal s else s
  spawnProcess { s1 with config := mergeConfig s1.config u }

/-- Configuration after the four field updates of `updateVolumes`
(mixer.js lines 208-211): a defined argument overwrites, an undefined
one keeps the stored value. -/
def updateVolumesConfig (c : MixerConfig)
    (rtmpVolume browserVolume rtmpDelay browserDelay : Option ℚ) :
    MixerConfig :=
  { c with rtmpVolume := rtmpVolume.getD c.rtmpVolume
           browserVolume := browserVolume.getD c.browserVolume
           rtmpDelay := rtmpDelay.getD c.rtmpDelay
           browserDelay := browserDelay.getD c.browserDelay }

/-- States visited by `updateVolumes` (mixer.js lines 203-214): a no-op
unless `isRunning`; otherwise the field updates followed by
`await this.start(this.config)`. -/
def updateVolumesVisited (s : MixerState)
    (rtmpVolume browserVolume rtmpDelay browserDelay : Option ℚ) :
    List MixerState :=
  if s.isRunning then
    let c := updateVolumesConfig s.config rtmpVolume browserVolume
      rtmpDelay browserDelay
    let s1 := { s with config := c }
    s1 :: startVisited s1 (fullUpdate c)
  else []

/-- Final state of `updateVolumes`. -/
def updateVolumesFinal (s : MixerState)
    (rtmpVolume browserVolume rtmpDelay browserDelay : Option ℚ) :
    MixerState :=
  if s.isRunning then
    let c := updateVolumesConfig s.config rtmpVolume browserVolume
      rtmpDelay browserDelay
    startFinal { s with config := c } (fullUpdate c)
  else s

/-- Environment event: the running FFmpeg process exits or errors on its
own; the `error` and `end` handlers clear `isRunning` but leave the
handle set (mixer.js lines 168-176). -/
def processExited (s : MixerState) : MixerState :=
  match s.ffmpegProcess with
  | some true =>
      { s with isRunning := false, ffmpegProcess := some false,
               alive := s.alive - 1 }
  | _ => s

/-- Operations of one sequential history of the controller, including
the asynchronous process-exit event. -/
inductive MixerOp where
  | startOp (u : ConfigUpdate)
  | stopOp
  | updateVolumesOp (rtmpVolume browserVolume rtmpDelay browserDelay :
      Option ℚ)
  | exitOp

/-- States visited while executing one operation. -/
def execVisited (s : MixerState) : MixerOp → List MixerState
  | .startOp u => startVisited s u
  | .stopOp => [stopFinal s]
  | .updateVolumesOp rv bv rd bd => updateVolumesVisited s rv bv rd bd
  | .exitOp => [processExited s]

/-- State after one operation completes. -/
def execFinal (s : MixerState) : MixerOp → MixerState
  | .startOp u => startFinal s u
  | .stopOp => stopFinal s
  | .updateVolumesOp rv bv rd bd => updateVolumesFinal s rv bv rd bd
  | .exitOp => processExited s

/-- All states visited along a sequential history of operations, after
the initial state. -/
def runTrace : MixerState → List MixerOp → List MixerState
  | _, [] => []
  | s, op :: ops => execVisited s op ++ runTrace (execFinal s op) ops

/-- State invariant of the embedding: the ghost counter agrees with the
handle, and `isRunning` holds exactly when the handled process is
alive. -/
def goodState (s : MixerState) : Prop :=
  s.alive = (if s.ffmpegProcess = some true then 1 else 0) ∧
  (s.isRunning = true ↔ s.ffmpegProcess = some true)

/-- Status object returned by `getStatus()` (mixer.js lines 216-221). -/
structure MixerStatus where
  isRunning : Bool
  config : MixerConfig
deriving DecidableEq, Repr

/-- Translation of `getStatus()` (mixer.js lines 216-221). -/
def getStatus (s : MixerState) : MixerStatus :=
  { isRunning := s.isRunning, config := s.config }

/-! ## Server-side secondary-source acquisition (server.js `/api/start`)

The `POST /api/start` handler dispatches on `appConfig.audioMode` to
resolve the `browserAudioPath` passed to `mixer.start` (part_000 lines
352-425).  The asynchronous browser or device capture is abstracted by
the `captureResult` argument: the value of `getAudioStream()` with every
failure already converted to `null` by the surrounding `try`/`catch`. -/

/-- Fields of the server `appConfig` that the audio-mode dispatch
reads. -/
structure AppAudioConfig where
  audioMode : String
  browserUrl : String
  audioDeviceName : String
  audioUrl : String
deriving DecidableEq, Repr

/-- Audio-mode dispatch of `POST /api/start` (part_000 lines 352-425):
`browser` and `device` modes use the capture result when configured,
`url` mode passes the configured url verbatim, `disabled` and unknown
modes yield no secondary path. -/
def resolveAudioPath (a : AppAudioConfig) (captureResult : Option String) :
    Option String :=
  if a.audioMode = "browser" then
    if a.browserUrl ≠ "" then captureResult else none
  else if a.audioMode = "device" then
    if a.audioDeviceName ≠ "" then captureResult else none
  else if a.audioMode = "url" then
    if a.audioUrl ≠ "" then some a.audioUrl else none
  else none

/-! ## Device-mode capture (browser-audio.js lines 376-437, 527-567)

`captureFromDevice` spawns an FFmpeg capture subprocess and, after a
fixed 2000 ms timer, resolves with the output path if the file exists
and with `null` otherwise; the subprocess handle stays in
`this.ffmpegProcess` in both cases.  The boolean parameters abstract the
environment: whether the spawn succeeded (the `error` event rejects the
promise) and whether the output file exists when the timer fires. -/

/-- Part of the `BrowserAudioCapture` state relevant to the capture
subprocess: `some true` is a live handled subprocess, `some false` a
handled subprocess that has exited, `none` is `null`. -/
structure CaptureState where
  ffmpegProcess : Option Bool
deriving DecidableEq, Repr

/-- Fixed output path `audio-temp/browser-audio.wav` used by the capture
(browser-audio.js line 213). -/
def audioOutputPath : String := "audio-temp/browser-audio.wav"

/-- Translation of `captureFromDevice` (browser-audio.js lines 376-437).
Unsupported platforms throw; a failed spawn rejects the promise; then
after the 2000 ms timer the promise resolves with the output path or
`null` according to file existence, with the subprocess handle stored
and untouched in both cases. -/
def captureFromDevice (platform : String)
    (spawnOk fileExistsAfterTimeout : Bool) :
    Except String (CaptureState × Option String) :=
  if platform = "darwin" ∨ platform = "linux" then
    if spawnOk then
      Except.ok ({ ffmpegProcess := some true },
        if fileExistsAfterTimeout then some audioOutputPath else none)
    else
      Except.error "FFmpeg process error"
  else
    Except.error ("Unsupported platform for device capture: " ++ platform)

/-- Effect of `cleanup()` on the capture subprocess (browser-audio.js
lines 527-539): the handle is killed and nulled. -/
def cleanupCapture (_s : CaptureState) : CaptureState :=
  { ffmpegProcess := none }

/-! ## Helper lemmas -/

/-- Positivity of the millisecond value and of the derived second value
agree. -/
lemma div1000_pos (d : ℚ) : 0 < d / 1000 ↔ 0 < d := by
  rw [div_pos_iff]
  constructor
  · rintro (⟨h, _⟩ | ⟨_, h⟩)
    · exact h
    · norm_num at h
  · intro h
    exact Or.inl ⟨h, by norm_num⟩

/-- A bitrate output option is never the stream-copy option. -/
lemma bv_option_ne_copy (x : String) : "-b:v " ++ x ≠ "-c:v copy" := by
  intro h
  have h2 : ("-b:v " ++ x).data = "-c:v copy".data := by rw [h]
  rw [String.data_append] at h2
  have h3 : "-b:v ".data = ['-', 'b', ':', 'v', ' '] := rfl
  have h4 : "-c:v copy".data = ['-', 'c', ':', 'v', ' ', 'c', 'o', 'p', 'y'] := rfl
  rw [h3, h4] at h2
  simp at h2

/-- The primary audio chain produced by `buildFilterComplex`: gain first,
delay only when `rtmpDelaySeconds` is positive, output label depending
on the presence of a secondary input. -/
lemma primary_chain_mem (c : MixerConfig) :
    Stage.audioChain "[0:a]"
      (if 0 < c.rtmpDelay / 1000 then
        [AudioOp.volume (c.rtmpVolume / 100),
         AudioOp.adelay c.rtmpDelay c.rtmpDelay]
      else [AudioOp.volume (c.rtmpVolume / 100)])
      (if truthyPath c.browserAudioPath then "[a0]" else "[aout]") ∈
      buildFilterComplex c := by
  by_cases hb : truthyPath c.browserAudioPath <;>
    by_cases h1 : (0 : ℚ) < c.rtmpDelay / 1000 <;>
      simp [buildFilterComplex, hb, h1]

/-- The secondary audio chain produced by `buildFilterComplex` when a
secondary input is present. -/
lemma secondary_chain_mem (c : MixerConfig)
    (hb : truthyPath c.browserAudioPath = true) :
    Stage.audioChain "[1:a]"
      (if 0 < c.browserDelay / 1000 then
        [AudioOp.volume (c.browserVolume / 100),
         AudioOp.adelay c.browserDelay c.browserDelay]
      else [AudioOp.volume (c.browserVolume / 100)])
      "[a1]" ∈ buildFilterComplex c := by
  by_cases h2 : (0 : ℚ) < c.browserDelay / 1000 <;>
    simp [buildFilterComplex, hb, h2]

/-! ## Claim theorems -/

/-- Claim C2: for all volumes in `[0,200]` and delays in `[0,5000]`, the
filter construction emits a gain stage of factor exactly `volume/100`
for the primary audio and, when a secondary source is present, for the
secondary audio, unconditionally; when the corresponding delay is
strictly positive it also emits a fixed `adelay` stage of exactly that
many milliseconds with the same value on both channels, and when the
delay is `0` the chain holds no delay stage. -/
theorem gain_and_delay_stage_emission (c : MixerConfig)
    (hpv : 0 ≤ c.rtmpVolume ∧ c.rtmpVolume ≤ 200)
    (hsv : 0 ≤ c.browserVolume ∧ c.browserVolume ≤ 200)
    (hpd : 0 ≤ c.rtmpDelay ∧ c.rtmpDelay ≤ 5000)
    (hsd : 0 ≤ c.browserDelay ∧ c.browserDelay ≤ 5000) :
    (∃ ops out, Stage.audioChain "[0:a]" ops out ∈ buildFilterComplex c ∧
      AudioOp.volume (c.rtmpVolume / 100) ∈ ops ∧
      (0 < c.rtmpDelay →
        AudioOp.adelay c.rtmpDelay c.rtmpDelay ∈ ops) ∧
      (c.rtmpDelay = 0 → ∀ l r, AudioOp.adelay l r ∉ ops)) ∧
    (truthyPath c.browserAudioPath = true →
      ∃ ops out, Stage.audioChain "[1:a]" ops out ∈ buildFilterComplex c ∧
        AudioOp.volume (c.browserVolume / 100) ∈ ops ∧
        (0 < c.browserDelay →
          AudioOp.adelay c.browserDelay c.browserDelay ∈ ops) ∧
        (c.browserDelay = 0 → ∀ l r, AudioOp.adelay l r ∉ ops)) := by
  refine ⟨⟨_, _, primary_chain_mem c, ?_, ?_, ?_⟩,
    fun hb => ⟨_, _, secondary_chain_mem c hb, ?_, ?_, ?_⟩⟩
  · by_cases h1 : (0 : ℚ) < c.rtmpDelay / 1000 <;> simp [h1]
  · intro hd
    have h1 : (0 : ℚ) < c.rtmpDelay / 1000 := (div1000_pos _).mpr hd
    simp [h1]
  · intro h0
    have h1 : ¬ (0 : ℚ) < c.rtmpDelay / 1000 := by rw [h0]; norm_num
    simp [h1]
  · by_cases h2 : (0 : ℚ) < c.browserDelay / 1000 <;> simp [h2]
  · intro hd
    have h2 : (0 : ℚ) < c.browserDelay / 1000 := (div1000_pos _).mpr hd
    simp [h2]
  · intro h0
    have h2 : ¬ (0 : ℚ) < c.browserDelay / 1000 := by rw [h0]; norm_num
    simp [h2]

/-- Witness for `gain_and_delay_stage_emission` at Scenario B. -/
theorem gain_and_delay_stage_emission_witness :
    ((0 : ℚ) ≤ 150 ∧ (150 : ℚ) ≤ 200) ∧
    (∃ ops out,
      Stage.audioChain "[0:a]" ops out ∈ buildFilterComplex scenarioBConfig ∧
      AudioOp.volume (scenarioBConfig.rtmpVolume / 100) ∈ ops ∧
      (0 < scenarioBConfig.rtmpDelay →
        AudioOp.adelay scenarioBConfig.rtmpDelay scenarioBConfig.rtmpDelay ∈
          ops) ∧
      (scenarioBConfig.rtmpDelay = 0 → ∀ l r, AudioOp.adelay l r ∉ ops)) :=
  ⟨⟨by norm_num, by norm_num⟩,
    (gain_and_delay_stage_emission scenarioBConfig
      (by constructor <;> norm_num [scenarioBConfig])
      (by constructor <;> norm_num [scenarioBConfig])
      (by constructor <;> norm_num [scenarioBConfig])
      (by constructor <;> norm_num [scenarioBConfig])).1⟩

/-- Claim C3: with a positive primary delay the graph holds the
timestamp-shift stage `setpts` parameterized by the delay and the output
is re-encoded with `libx264` (stream copy excluded); with a zero primary
delay the graph holds no video stage and the video stream is mapped
directly from the input with stream copy (re-encode excluded). -/
theorem video_stage_and_codec_selection (c : MixerConfig) :
    (0 < c.rtmpDelay →
      Stage.setpts "[0:v]" (c.rtmpDelay / 1000) "[v0]" ∈
        buildFilterComplex c ∧
      "-map [v0]" ∈ buildOutputOptions c ∧
      "-c:v libx264" ∈ buildOutputOptions c ∧
      "-c:v copy" ∉ buildOutputOptions c) ∧
    (c.rtmpDelay = 0 →
      (∀ i q o, Stage.setpts i q o ∉ buildFilterComplex c) ∧
      "-map 0:v" ∈ buildOutputOptions c ∧
      "-c:v copy" ∈ buildOutputOptions c ∧
      "-c:v libx264" ∉ buildOutputOptions c) := by
  constructor
  · intro hd
    have h1 : (0 : ℚ) < c.rtmpDelay / 1000 := (div1000_pos _).mpr hd
    have hnv : needsVideoFilter c = true := by
      simp [needsVideoFilter, h1]
    have hne := Ne.symm (bv_option_ne_copy c.videoBitrate)
    refine ⟨?_, ?_, ?_, ?_⟩
    · by_cases hb : truthyPath c.browserAudioPath <;>
        simp [buildFilterComplex, hb, h1]
    · simp [buildOutputOptions, hnv]
    · simp [buildOutputOptions, hnv]
    · simp [buildOutputOptions, hnv, hne]
  · intro h0
    have h1 : ¬ (0 : ℚ) < c.rtmpDelay / 1000 := by rw [h0]; norm_num
    have hnv : needsVideoFilter c = false := by
      simp [needsVideoFilter, h1]
    refine ⟨?_, ?_, ?_, ?_⟩
    · by_cases hb : truthyPath c.browserAudioPath <;>
        by_cases h2 : (0 : ℚ) < c.browserDelay / 1000 <;>
          simp [buildFilterComplex, hb, h1, h2]
    · simp [buildOutputOptions, hnv]
    · simp [buildOutputOptions, hnv]
    · simp [buildOutputOptions, hnv]

/-- Witness for `video_stage_and_codec_selection`: the positive-delay
branch at a delayed config and the zero-delay branch at Scenario B. -/
theorem video_stage_and_codec_selection_witness :
    ("-c:v copy" ∈
      buildOutputOptions scenarioBConfig ∧
     "-c:v libx264" ∉ buildOutputOptions scenarioBConfig) ∧
    "-c:v libx264" ∈
      buildOutputOptions { scenarioBConfig with rtmpDelay := 500 } :=
  ⟨⟨((video_stage_and_codec_selection scenarioBConfig).2 (by rfl)).2.2.1,
    ((video_stage_and_codec_selection scenarioBConfig).2 (by rfl)).2.2.2⟩,
   ((video_stage_and_codec_selection
      { scenarioBConfig with rtmpDelay := 500 }).1 (by norm_num)).2.2.1⟩

/-- Claim C4: the graph holds an `amix` merge stage exactly when a
secondary audio source is present; when present, the two gain-adjusted
chains labelled `[a0]` and `[a1]` feed one merge stage with the
`longest` duration policy and a dropout transition window of 2; when
absent, the primary chain is labelled `[aout]` directly and no merge
stage exists. -/
theorem merge_stage_iff_secondary (c : MixerConfig) :
    (truthyPath c.browserAudioPath = true →
      Stage.amix "[a0]" "[a1]" "longest" 2 "[aout]" ∈ buildFilterComplex c ∧
      (∃ ops, Stage.audioChain "[0:a]" ops "[a0]" ∈ buildFilterComplex c) ∧
      (∃ ops, Stage.audioChain "[1:a]" ops "[a1]" ∈ buildFilterComplex c)) ∧
    (truthyPath c.browserAudioPath = false →
      (∀ i1 i2 d q o, Stage.amix i1 i2 d q o ∉ buildFilterComplex c) ∧
      (∃ ops, Stage.audioChain "[0:a]" ops "[aout]" ∈
        buildFilterComplex c)) := by
  constructor
  · intro hb
    refine ⟨?_, ?_, ?_⟩
    · by_cases h1 : (0 : ℚ) < c.rtmpDelay / 1000 <;>
        simp [buildFilterComplex, hb, h1]
    · have h := primary_chain_mem c
      simp only [hb, if_true] at h
      exact ⟨_, h⟩
    · exact ⟨_, secondary_chain_mem c hb⟩
  · intro hb
    constructor
    · by_cases h1 : (0 : ℚ) < c.rtmpDelay / 1000 <;>
        by_cases h2 : (0 : ℚ) < c.browserDelay / 1000 <;>
          simp [buildFilterComplex, hb, h1, h2]
    · have h := primary_chain_mem c
      simp only [hb, if_false] at h
      exact ⟨_, h⟩

/-- Witness for `merge_stage_iff_secondary`: the merge stage at Scenario
B and its absence at the secondary-free initial configuration. -/
theorem merge_stage_iff_secondary_witness :
    Stage.amix "[a0]" "[a1]" "longest" 2 "[aout]" ∈
      buildFilterComplex scenarioBConfig ∧
    (∀ i1 i2 d q o, Stage.amix i1 i2 d q o ∉
      buildFilterComplex initialConfig) :=
  ⟨((merge_stage_iff_secondary scenarioBConfig).1 (by rfl)).1,
   ((merge_stage_iff_secondary initialConfig).2 (by rfl)).1⟩

/-- Claim C5: the graph construction is deterministic; identical merged
configurations produce identical filter-stage lists, identical output
options and identical full FFmpeg specifications. -/
theorem build_graph_deterministic (c1 c2 : MixerConfig) (h : c1 = c2) :
    buildFilterComplex c1 = buildFilterComplex c2 ∧
    buildOutputOptions c1 = buildOutputOptions c2 ∧
    buildGraphSpec c1 = buildGraphSpec c2 := by
  subst h
  exact ⟨rfl, rfl, rfl⟩

/-- Witness for `build_graph_deterministic` at Scenario B. -/
theorem build_graph_deterministic_witness :
    buildGraphSpec scenarioBConfig = buildGraphSpec scenarioBConfig :=
  (build_graph_deterministic scenarioBConfig scenarioBConfig rfl).2.2

/-- Stopping never touches the stored configuration. -/
lemma stopFinal_config (s : MixerState) : (stopFinal s).config = s.config := by
  unfold stopFinal
  cases s.ffmpegProcess <;> rfl

/-- Stopping always clears the process handle. -/
lemma stopFinal_ffmpegProcess (s : MixerState) :
    (stopFinal s).ffmpegProcess = none := by
  unfold stopFinal
  cases s.ffmpegProcess <;> rfl

/-- Stopping always clears the running flag. -/
lemma stopFinal_isRunning (s : MixerState) :
    (stopFinal s).isRunning = false := by
  unfold stopFinal
  cases s.ffmpegProcess <;> rfl

/-- The final state of `start` carries the merged configuration. -/
lemma startFinal_config (s : MixerState) (u : ConfigUpdate) :
    (startFinal s u).config = mergeConfig s.config u := by
  unfold startFinal spawnProcess
  by_cases hr : s.isRunning <;> simp [hr, stopFinal_config]

/-- The final state of `start` has a fresh process handle and the
running flag set. -/
lemma startFinal_process (s : MixerState) (u : ConfigUpdate) :
    (startFinal s u).ffmpegProcess = some true ∧
    (startFinal s u).isRunning = true := by
  unfold startFinal spawnProcess
  by_cases hr : s.isRunning <;> simp [hr]

/-- Merging a full update of a configuration into anything restores that
configuration. -/
lemma mergeConfig_fullUpdate (b c : MixerConfig) :
    mergeConfig b (fullUpdate c) = c := by
  rfl

/-- Claim C10: the configuration stored by `start(c)` is the previous
configuration overridden by exactly the fields present in `c`; each
absent field retains its stored value, and `getStatus` afterwards
reports the merged configuration with the running flag set. -/
theorem start_merges_config_fieldwise (s : MixerState) (u : ConfigUpdate) :
    (startFinal s u).config = mergeConfig s.config u ∧
    (startFinal s u).config.inputRtmpUrl =
      u.inputRtmpUrl.getD s.config.inputRtmpUrl ∧
    (startFinal s u).config.outputRtmpUrl =
      u.outputRtmpUrl.getD s.config.outputRtmpUrl ∧
    (startFinal s u).config.browserAudioPath =
      u.browserAudioPath.getD s.config.browserAudioPath ∧
    (startFinal s u).config.rtmpVolume =
      u.rtmpVolume.getD s.config.rtmpVolume ∧
    (startFinal s u).config.browserVolume =
      u.browserVolume.getD s.config.browserVolume ∧
    (startFinal s u).config.rtmpDelay =
      u.rtmpDelay.getD s.config.rtmpDelay ∧
    (startFinal s u).config.browserDelay =
      u.browserDelay.getD s.config.browserDelay ∧
    (startFinal s u).config.videoBitrate =
      u.videoBitrate.getD s.config.videoBitrate ∧
    getStatus (startFinal s u) =
      { isRunning := true, config := mergeConfig s.config u } := by
  have hc := startFinal_config s u
  have hp := startFinal_process s u
  refine ⟨hc, ?_, ?_, ?_, ?_, ?_, ?_, ?_, ?_, ?_⟩ <;>
    simp [hc, mergeConfig, getStatus, hp.2]

/-- Update carrying only an out-of-range primary volume. -/
def overVolumeUpdate : ConfigUpdate := { rtmpVolume := some 500 }

/-- Claim C1 counterexample: `start` with `rtmpVolume = 500`, far above
the documented `[0,200]` range, is not rejected; the stored
configuration changes from its previous value `100` to `500`, a process
is spawned, and the spawned filter graph carries the out-of-range gain
factor `5`. -/
theorem range_validation_missing_cex :
    (200 : ℚ) < 500 ∧
    initialState.config.rtmpVolume = 100 ∧
    (startFinal initialState overVolumeUpdate).config.rtmpVolume = 500 ∧
    (startFinal initialState overVolumeUpdate).isRunning = true ∧
    (startFinal initialState overVolumeUpdate).ffmpegProcess = some true ∧
    AudioOp.volume 5 ∈
      [AudioOp.volume
        ((startFinal initialState overVolumeUpdate).config.rtmpVolume /
          100)] := by
  refine ⟨by norm_num, rfl, ?_, ?_, ?_, ?_⟩
  · simp [startFinal, initialState, initialConfig, overVolumeUpdate,
      mergeConfig, spawnProcess]
  · simp [startFinal, initialState, spawnProcess]
  · simp [startFinal, initialState, spawnProcess]
  · have h : (startFinal initialState overVolumeUpdate).config.rtmpVolume
        = 500 := by
      simp [startFinal, initialState, initialConfig, overVolumeUpdate,
        mergeConfig, spawnProcess]
    rw [h]
    norm_num

/-- Claim C1 amended: neither `start` nor `updateVolumes` validates the
numeric ranges.  A `start` whose update carries any volume `v`, also one
above 200, stores `v`, spawns a process, and the filter graph built from
the stored configuration carries the gain factor `v / 100`; an
`updateVolumes` on a running mixer likewise stores `v` and restarts. -/
theorem out_of_range_values_accepted (s : MixerState) (v : ℚ)
    (hv : 200 < v) :
    (∀ u : ConfigUpdate, u.rtmpVolume = some v →
      (startFinal s u).config.rtmpVolume = v ∧
      (startFinal s u).isRunning = true ∧
      (startFinal s u).ffmpegProcess = some true ∧
      ∃ ops out, Stage.audioChain "[0:a]" ops out ∈
          buildFilterComplex (startFinal s u).config ∧
        AudioOp.volume (v / 100) ∈ ops) ∧
    (s.isRunning = true →
      (updateVolumesFinal s (some v) none none none).config.rtmpVolume =
        v ∧
      (updateVolumesFinal s (some v) none none none).isRunning = true) := by
  constructor
  · intro u hu
    have hc := startFinal_config s u
    have hfield : (startFinal s u).config.rtmpVolume = v := by
      rw [hc]
      simp [mergeConfig, hu]
    refine ⟨hfield, (startFinal_process s u).2, (startFinal_process s u).1,
      _, _, primary_chain_mem (startFinal s u).config, ?_⟩
    rw [hfield]
    by_cases h1 :
        (0 : ℚ) < (startFinal s u).config.rtmpDelay / 1000 <;> simp [h1]
  · intro hr
    have hfin : updateVolumesFinal s (some v) none none none =
        startFinal
          { s with config :=
              updateVolumesConfig s.config (some v) none none none }
          (fullUpdate
            (updateVolumesConfig s.config (some v) none none none)) := by
      simp [updateVolumesFinal, hr]
    rw [hfin, startFinal_config, mergeConfig_fullUpdate]
    exact ⟨by simp [updateVolumesConfig],
      (startFinal_process _ _).2⟩

/-- Witness for `out_of_range_values_accepted` at volume 500 from the
initial state. -/
theorem out_of_range_values_accepted_witness :
    (200 : ℚ) < 500 ∧
    ((startFinal initialState overVolumeUpdate).config.rtmpVolume = 500 ∧
     (startFinal initialState overVolumeUpdate).isRunning = true ∧
     (startFinal initialState overVolumeUpdate).ffmpegProcess =
       some true ∧
     ∃ ops out, Stage.audioChain "[0:a]" ops out ∈
         buildFilterComplex
           (startFinal initialState overVolumeUpdate).config ∧
       AudioOp.volume ((500 : ℚ) / 100) ∈ ops) :=
  ⟨by norm_num,
    (out_of_range_values_accepted initialState 500 (by norm_num)).1
      overVolumeUpdate rfl⟩

/-- Concrete running mixer state used in the lifecycle counterexamples. -/
def runningState : MixerState :=
  { config := initialConfig
    isRunning := true
    ffmpegProcess := some true
    alive := 1 }

/-- Update carrying only a halved primary volume. -/
def halfVolumeUpdate : ConfigUpdate := { rtmpVolume := some 50 }

/-- Claim C6 counterexample: `start` on a running mixer is not a
rejected no-op; the first visited state has the old process killed and
the handle cleared, and the final state stores the new volume `50` in
place of the previous `100`. -/
theorem start_while_running_not_noop_cex :
    runningState.isRunning = true ∧
    runningState.config.rtmpVolume = 100 ∧
    (startVisited runningState halfVolumeUpdate).head? =
      some (stopFinal runningState) ∧
    (stopFinal runningState).ffmpegProcess = none ∧
    (stopFinal runningState).isRunning = false ∧
    (startFinal runningState halfVolumeUpdate).config.rtmpVolume = 50 := by
  refine ⟨rfl, rfl, ?_, ?_, ?_, ?_⟩
  · simp [startVisited, runningState]
  · simp [stopFinal, runningState]
  · simp [stopFinal, runningState]
  · simp [startFinal, runningState, initialConfig, halfVolumeUpdate,
      mergeConfig, stopFinal, spawnProcess]

/-- Claim C6 amended: `start` on a running mixer is not rejected;
it first stops and reaps the running process, then stores the merged
configuration and spawns a fresh process, ending running with a new
handle. -/
theorem start_while_running_stops_then_restarts (s : MixerState)
    (u : ConfigUpdate) (h : s.isRunning = true) :
    (∃ s2, startVisited s u = [stopFinal s, s2, spawnProcess s2] ∧
      s2.config = mergeConfig s.config u) ∧
    (stopFinal s).ffmpegProcess = none ∧
    (stopFinal s).isRunning = false ∧
    (startFinal s u).config = mergeConfig s.config u ∧
    (startFinal s u).isRunning = true ∧
    (startFinal s u).ffmpegProcess = some true := by
  refine ⟨⟨{ stopFinal s with
        config := mergeConfig (stopFinal s).config u }, ?_, ?_⟩,
    stopFinal_ffmpegProcess s, stopFinal_isRunning s,
    startFinal_config s u, (startFinal_process s u).2,
    (startFinal_process s u).1⟩
  · simp [startVisited, h]
  · simp [stopFinal_config]

/-- Witness for `start_while_running_stops_then_restarts` at the
concrete running state. -/
theorem start_while_running_stops_then_restarts_witness :
    runningState.isRunning = true ∧
    ((startFinal runningState halfVolumeUpdate).config =
      mergeConfig runningState.config halfVolumeUpdate ∧
     (startFinal runningState halfVolumeUpdate).isRunning = true) :=
  ⟨rfl,
    (start_while_running_stops_then_restarts runningState halfVolumeUpdate
      rfl).2.2.2.1,
    (start_while_running_stops_then_restarts runningState halfVolumeUpdate
      rfl).2.2.2.2.1⟩

/-- Changing only the configuration preserves the state invariant. -/
lemma goodState_config_update (s : MixerState) (c : MixerConfig)
    (h : goodState s) : goodState { s with config := c } := by
  exact h

/-- Stopping drives the live counter to zero and preserves the
invariant. -/
lemma stopFinal_good (s : MixerState) (h : goodState s) :
    (stopFinal s).alive = 0 ∧ goodState (stopFinal s) := by
  obtain ⟨h1, _⟩ := h
  cases hp : s.ffmpegProcess with
  | none =>
      rw [hp] at h1
      simp at h1
      simp [stopFinal, hp, goodState, h1]
  | some aliveFlag =>
      cases aliveFlag
      · rw [hp] at h1
        simp at h1
        simp [stopFinal, hp, goodState, h1]
      · rw [hp] at h1
        simp at h1
        simp [stopFinal, hp, goodState, h1]

/-- A state with no live process has counter zero. -/
lemma not_running_alive_zero (s : MixerState) (h : goodState s)
    (hr : s.isRunning = false) : s.alive = 0 := by
  obtain ⟨h1, h2⟩ := h
  have hne : s.ffmpegProcess ≠ some true := by
    intro he
    rw [h2.mpr he] at hr
    simp at hr
  rw [h1, if_neg hne]

/-- Spawning from a state with no live process yields exactly one live
process and preserves the invariant. -/
lemma spawnProcess_good (s : MixerState) (h0 : s.alive = 0) :
    (spawnProcess s).alive = 1 ∧ goodState (spawnProcess s) := by
  simp [spawnProcess, goodState, h0]

/-- Every state visited by `start` has at most one live process, and
the final state satisfies the invariant. -/
lemma startVisited_good (s : MixerState) (u : ConfigUpdate)
    (h : goodState s) :
    (∀ t ∈ startVisited s u, t.alive ≤ 1) ∧ goodState (startFinal s u) := by
  by_cases hr : s.isRunning
  · obtain ⟨hz, hg⟩ := stopFinal_good s h
    constructor
    · intro t ht
      simp [startVisited, hr] at ht
      rcases ht with ht | ht | ht <;> subst ht
      · omega
      · simp [hz]
      · simp [spawnProcess, hz]
    · have hz2 : ({ stopFinal s with
          config := mergeConfig (stopFinal s).config u } : MixerState).alive
          = 0 := hz
      simp only [startFinal, hr, if_true]
      exact (spawnProcess_good _ hz2).2
  · have hb : s.isRunning = false := by
      simpa using hr
    have hz := not_running_alive_zero s h hb
    constructor
    · intro t ht
      simp [startVisited, hb] at ht
      rcases ht with ht | ht <;> subst ht
      · simp [hz]
      · simp [spawnProcess, hz]
    · simp only [startFinal, hb, Bool.false_eq_true, if_false]
      exact (spawnProcess_good _ hz).2

/-- An invariant state itself has at most one live process. -/
lemma goodState_alive_le (s : MixerState) (h : goodState s) :
    s.alive ≤ 1 := by
  obtain ⟨h1, _⟩ := h
  rw [h1]
  split <;> omega

/-- Every state visited by `updateVolumes` has at most one live process,
and the final state satisfies the invariant. -/
lemma updateVolumesVisited_good (s : MixerState)
    (rv bv rd bd : Option ℚ) (h : goodState s) :
    (∀ t ∈ updateVolumesVisited s rv bv rd bd, t.alive ≤ 1) ∧
    goodState (updateVolumesFinal s rv bv rd bd) := by
  cases hs : s.isRunning with
  | false =>
      constructor
      · intro t ht
        simp [updateVolumesVisited, hs] at ht
      · have hd : updateVolumesFinal s rv bv rd bd = s := by
          simp [updateVolumesFinal, hs]
        rw [hd]
        exact h
  | true =>
      obtain ⟨hvis, hfin⟩ := startVisited_good
        { s with config := updateVolumesConfig s.config rv bv rd bd }
        (fullUpdate (updateVolumesConfig s.config rv bv rd bd)) h
      have hveq : updateVolumesVisited s rv bv rd bd =
          { s with config := updateVolumesConfig s.config rv bv rd bd } ::
            startVisited
              { s with config := updateVolumesConfig s.config rv bv rd bd }
              (fullUpdate (updateVolumesConfig s.config rv bv rd bd)) := by
        simp [updateVolumesVisited, hs]
      have hfeq : updateVolumesFinal s rv bv rd bd =
          startFinal
            { s with config := updateVolumesConfig s.config rv bv rd bd }
            (fullUpdate (updateVolumesConfig s.config rv bv rd bd)) := by
        simp [updateVolumesFinal, hs]
      constructor
      · intro t ht
        rw [hveq] at ht
        rcases List.mem_cons.mp ht with ht | ht
        · subst ht
          exact goodState_alive_le _ h
        · exact hvis t ht
      · rw [hfeq]
        exact hfin

/-- The process-exit event preserves the invariant and bounds. -/
lemma processExited_good (s : MixerState) (h : goodState s) :
    (processExited s).alive ≤ 1 ∧ goodState (processExited s) := by
  obtain ⟨h1, h2⟩ := h
  cases hp : s.ffmpegProcess with
  | none =>
      rw [hp] at h1
      simp at h1
      simp [processExited, hp, goodState, h1, h2, hp]
  | some aliveFlag =>
      cases aliveFlag
      · rw [hp] at h1
        simp at h1
        simp [processExited, hp, goodState, h1, h2, hp]
      · rw [hp] at h1
        simp at h1
        simp [processExited, hp, goodState, h1]

/-- One operation keeps every visited state at or below one live
process and preserves the invariant. -/
lemma execVisited_good (s : MixerState) (op : MixerOp) (h : goodState s) :
    (∀ t ∈ execVisited s op, t.alive ≤ 1) ∧ goodState (execFinal s op) := by
  cases op with
  | startOp u => exact startVisited_good s u h
  | stopOp =>
      obtain ⟨hz, hg⟩ := stopFinal_good s h
      exact ⟨by intro t ht; simp [execVisited] at ht; subst ht; omega, hg⟩
  | updateVolumesOp rv bv rd bd => exact updateVolumesVisited_good s rv bv rd bd h
  | exitOp =>
      obtain ⟨hz, hg⟩ := processExited_good s h
      exact ⟨by intro t ht; simp [execVisited] at ht; subst ht; exact hz, hg⟩

/-- Along any sequential history from an invariant state, every visited
state has at most one live process. -/
lemma runTrace_alive_le (s : MixerState) (ops : List MixerOp)
    (h : goodState s) : ∀ t ∈ runTrace s ops, t.alive ≤ 1 := by
  induction ops generalizing s with
  | nil => intro t ht; simp [runTrace] at ht
  | cons op ops ih =>
      intro t ht
      simp only [runTrace, List.mem_append] at ht
      obtain ⟨hvis, hfin⟩ := execVisited_good s op h
      rcases ht with ht | ht
      · exact hvis t ht
      · exact ih (execFinal s op) hfin t ht


/-- Claim C9: along every sequential history of start, stop,
updateVolumes and process-exit events from an invariant state, every
visited state has at most one live transcoding process; and a restart
triggered by `updateVolumes` on a running mixer passes through states
with live-process counts 1, 0, 0, 1: the old process is fully gone
before the new one is spawned and the count never exceeds one. -/
theorem at_most_one_live_process (s : MixerState) (ops : List MixerOp)
    (h : goodState s) :
    (∀ t ∈ s :: runTrace s ops, t.alive ≤ 1) ∧
    (∀ rv bv rd bd : Option ℚ, s.isRunning = true →
      ∃ t1 t2 t3 t4,
        updateVolumesVisited s rv bv rd bd = [t1, t2, t3, t4] ∧
        t1.alive = 1 ∧ t2.alive = 0 ∧ t3.alive = 0 ∧ t4.alive = 1) := by
  constructor
  · intro t ht
    rcases List.mem_cons.mp ht with rfl | ht
    · exact goodState_alive_le _ h
    · exact runTrace_alive_le s ops h t ht
  · intro rv bv rd bd hr
    have hp : s.ffmpegProcess = some true := h.2.mp hr
    have ha : s.alive = 1 := by rw [h.1, if_pos hp]
    have h0 : (stopFinal { s with
        config := updateVolumesConfig s.config rv bv rd bd }).alive = 0 :=
      (stopFinal_good
        { s with config := updateVolumesConfig s.config rv bv rd bd } h).1
    refine ⟨{ s with config := updateVolumesConfig s.config rv bv rd bd },
      stopFinal { s with
        config := updateVolumesConfig s.config rv bv rd bd },
      { stopFinal { s with
            config := updateVolumesConfig s.config rv bv rd bd } with
        config := mergeConfig
          (stopFinal { s with
            config := updateVolumesConfig s.config rv bv rd bd }).config
          (fullUpdate (updateVolumesConfig s.config rv bv rd bd)) },
      spawnProcess
        { stopFinal { s with
              config := updateVolumesConfig s.config rv bv rd bd } with
          config := mergeConfig
            (stopFinal { s with
              config := updateVolumesConfig s.config rv bv rd bd }).config
            (fullUpdate (updateVolumesConfig s.config rv bv rd bd)) },
      ?_, ha, h0, h0, ?_⟩
    · simp [updateVolumesVisited, startVisited, hr]
    · simp [spawnProcess, h0]

/-- History of operations used to witness the single-process theorem:
a live-parameter restart, a stop, a fresh start and a spontaneous
process exit. -/
def demoOps : List MixerOp :=
  [MixerOp.updateVolumesOp (some 120) none none none, MixerOp.stopOp,
   MixerOp.startOp halfVolumeUpdate, MixerOp.exitOp]

/-- Witness for `at_most_one_live_process` on a concrete running state
and history. -/
theorem at_most_one_live_process_witness :
    goodState runningState ∧
    (∀ t ∈ runningState :: runTrace runningState demoOps, t.alive ≤ 1) :=
  ⟨by simp [goodState, runningState],
   (at_most_one_live_process runningState demoOps
      (by simp [goodState, runningState])).1⟩

/-- Claim C7 counterexample: a Linux device capture whose output file
has not appeared when the 2000 ms timer fires resolves with `null`
while the capture subprocess handle is still set and its process still
alive — the subprocess is not killed. -/
theorem device_timeout_keeps_subprocess_cex :
    captureFromDevice "linux" true false =
      Except.ok ({ ffmpegProcess := some true }, none) := by
  simp [captureFromDevice]

/-- Claim C7 amended: on a supported platform, when the output file has
not appeared at the 2000 ms check, `captureFromDevice` resolves `null`
without killing the capture subprocess; the live subprocess stays bound
in `this.ffmpegProcess` and only a later `cleanup()` kills and clears
it. -/
theorem device_timeout_returns_null_without_kill (platform : String)
    (hp : platform = "darwin" ∨ platform = "linux") :
    captureFromDevice platform true false =
      Except.ok ({ ffmpegProcess := some true }, none) ∧
    (cleanupCapture { ffmpegProcess := some true }).ffmpegProcess =
      none := by
  constructor
  · simp [captureFromDevice, hp]
  · rfl

/-- Witness for `device_timeout_returns_null_without_kill` on Linux. -/
theorem device_timeout_returns_null_without_kill_witness :
    ("linux" = "darwin" ∨ "linux" = "linux") ∧
    captureFromDevice "linux" true false =
      Except.ok ({ ffmpegProcess := some true }, none) :=
  ⟨Or.inr rfl,
    (device_timeout_returns_null_without_kill "linux" (Or.inr rfl)).1⟩

/-- Server configuration selecting the url audio mode with a configured
direct audio url. -/
def urlModeAppConfig : AppAudioConfig :=
  { audioMode := "url"
    browserUrl := ""
    audioDeviceName := ""
    audioUrl := "https://example.com/audio.mp3" }

/-- Mixer configuration produced by `POST /api/start` in url mode: the
resolved audio url becomes `browserAudioPath` (part_000 lines
431-440). -/
def urlModeMixConfig : MixerConfig :=
  { inputRtmpUrl := "rtmp://localhost:1935/live/stream"
    outputRtmpUrl := "rtmp://out/key"
    browserAudioPath := resolveAudioPath urlModeAppConfig none
    rtmpVolume := 100
    browserVolume := 100
    rtmpDelay := 0
    browserDelay := 0
    videoBitrate := "6000k" }

/-- Claim C8 counterexample: a url-mode acquisition resolves the direct
audio url as the secondary path, and the mixer reads that url-mode
handle with the looping input options `-stream_loop -1` — it is not
read once, unlooped. -/
theorem url_mode_secondary_looped_cex :
    resolveAudioPath urlModeAppConfig none =
      some "https://example.com/audio.mp3" ∧
    buildInputs urlModeMixConfig =
      [("rtmp://localhost:1935/live/stream", primaryInputOptionList),
       ("https://example.com/audio.mp3", secondaryInputOptionList)] ∧
    "-stream_loop" ∈ secondaryInputOptionList ∧
    "-1" ∈ secondaryInputOptionList := by
  refine ⟨rfl, ?_, ?_, ?_⟩
  · simp [buildInputs, urlModeMixConfig, urlModeAppConfig,
      resolveAudioPath]
  · simp [secondaryInputOptionList]
  · simp [secondaryInputOptionList]

/-- Claim C8 amended: whenever any secondary audio path is present —
url mode included — the mixer configures its input-reading stage with
the looping options `-stream_loop -1`; there is no per-handle loop flag,
and only the absence of a secondary path yields a single unlooped
input. -/
theorem secondary_input_always_looped (c : MixerConfig) :
    (truthyPath c.browserAudioPath = true →
      ∃ p, c.browserAudioPath = some p ∧
        buildInputs c = [(c.inputRtmpUrl, primaryInputOptionList),
          (p, secondaryInputOptionList)]) ∧
    "-stream_loop" ∈ secondaryInputOptionList ∧
    "-1" ∈ secondaryInputOptionList ∧
    (truthyPath c.browserAudioPath = false →
      buildInputs c = [(c.inputRtmpUrl, primaryInputOptionList)]) := by
  refine ⟨?_, by simp [secondaryInputOptionList],
    by simp [secondaryInputOptionList], ?_⟩
  · intro hb
    cases hc : c.browserAudioPath with
    | none => rw [hc] at hb; simp [truthyPath] at hb
    | some p =>
        refine ⟨p, rfl, ?_⟩
        rw [hc] at hb
        simp only [truthyPath, ne_eq, decide_eq_true_eq] at hb
        simp [buildInputs, hc, hb]
  · intro hb
    cases hc : c.browserAudioPath with
    | none => simp [buildInputs, hc]
    | some p =>
        rw [hc] at hb
        simp only [truthyPath] at hb
        simp at hb
        simp [buildInputs, hc, hb]

/-- Witness for `secondary_input_always_looped` at the url-mode
configuration. -/
theorem secondary_input_always_looped_witness :
    truthyPath urlModeMixConfig.browserAudioPath = true ∧
    (∃ p, urlModeMixConfig.browserAudioPath = some p ∧
      buildInputs urlModeMixConfig =
        [(urlModeMixConfig.inputRtmpUrl, primaryInputOptionList),
         (p, secondaryInputOptionList)]) :=
  ⟨by simp [urlModeMixConfig, urlModeAppConfig, resolveAudioPath,
      truthyPath],
   (secondary_input_always_looped urlModeMixConfig).1
     (by simp [urlModeMixConfig, urlModeAppConfig, resolveAudioPath,
       truthyPath])⟩
